import Mathlib

/-!
Shallow embedding of `rnor_calculator.py` (RNOR status calculator).

Calendar dates are embedded as proleptic-Gregorian day numbers (`ℤ`), the
same ordinal arithmetic that backs Python `datetime` subtraction: comparison
of two midnight datetimes agrees with comparison of their day numbers, and
`(a - b).days` equals the difference of day numbers.  A trip dictionary may
hold non-datetime values (the Streamlit layer passes strings through
`safe_date_parse` unchanged when the pattern does not match), so trip fields
are `Option ℤ`, with `none` standing for any non-datetime value; the
`isinstance` guards in `calc_days_in_india` become matches on `Option`.
-/

/-- Leap-year test of the Gregorian calendar, as used by Python `datetime`. -/
def isLeap (y : ℕ) : Bool :=
  (y % 4 == 0 && y % 100 != 0) || y % 400 == 0

/-- Number of days in month `m` (1-based) of year `y`. -/
def daysInMonth (y m : ℕ) : ℕ :=
  if m = 2 then (if isLeap y then 29 else 28)
  else if m = 4 ∨ m = 6 ∨ m = 9 ∨ m = 11 then 30
  else 31

/-- Days in year `y` strictly before month `m` (1-based). -/
def daysBeforeMonth (y m : ℕ) : ℕ :=
  ((List.range (m - 1)).map (fun k => daysInMonth y (k + 1))).sum

/-- Days strictly before January 1 of year `y` (proleptic Gregorian). -/
def daysBeforeYear (y : ℕ) : ℕ :=
  365 * (y - 1) + (y - 1) / 4 + (y - 1) / 400 - (y - 1) / 100

/-- Rata-die day number of the date `(y, m, d)`; differences of day numbers
equal Python `(datetime1 - datetime2).days` for midnight datetimes. -/
def dayNumber (y m d : ℕ) : ℤ :=
  (daysBeforeYear y : ℤ) + (daysBeforeMonth y m : ℤ) + (d : ℤ)

/-- A trip dictionary: `departure` and `return` values.  `none` models a
value that is not a `datetime` instance (e.g. an unparsed string). -/
structure Trip where
  dep : Option ℤ
  ret : Option ℤ
  deriving Repr, DecidableEq, Inhabited

/-- Contribution of one trip to the running total of `calc_days_in_india`:
the body of its `for` loop.  Skipped trips (non-datetime fields, departure
not before return, no intersection with the window) contribute `0`;
otherwise the trip is clipped to the window and `max(fy_days - days_outside, 0)`
is added — note the source adds this per-trip quantity, not the clipped
abroad length. -/
def tripDays (fy_start fy_end : ℤ) (t : Trip) : ℤ :=
  match t.dep, t.ret with
  | some dep, some ret =>
    if ret ≤ dep then 0
    else if ret < fy_start ∨ fy_end < dep then 0
    else
      let actual_depart := max dep fy_start
      let actual_return := min ret fy_end
      let days_outside := actual_return - actual_depart
      let fy_days := fy_end - fy_start
      max (fy_days - days_outside) 0
  | _, _ => 0

/-- Embedding of `calc_days_in_india(travel_data, fy_start, fy_end)`:
folds the per-trip contribution into `total_days`, starting from `0`. -/
def calc_days_in_india (travel_data : List Trip) (fy_start fy_end : ℤ) : ℤ :=
  travel_data.foldl (fun total_days trip => total_days + tripDays fy_start fy_end trip) 0

/-- Modelled from the spec (§4.2 OverlapCalculator), for comparison with
`calc_days_in_india`: clipped abroad length of one valid intersecting trip. -/
def specTripAbroad (fy_start fy_end : ℤ) (t : Trip) : ℤ :=
  match t.dep, t.ret with
  | some dep, some ret =>
    if ret ≤ dep then 0
    else if ret < fy_start ∨ fy_end < dep then 0
    else min ret fy_end - max dep fy_start
  | _, _ => 0

/-- Modelled from the spec (§4.2 OverlapCalculator), for comparison with
`calc_days_in_india`: sum the clipped abroad-day lengths across all
intersecting trips into `daysAbroad`, then return
`max(fyLengthDays - daysAbroad, 0)`. -/
def spec_days_in_india (travel_data : List Trip) (fy_start fy_end : ℤ) : ℤ :=
  let daysAbroad := (travel_data.map (specTripAbroad fy_start fy_end)).sum
  max ((fy_end - fy_start) - daysAbroad) 0

/-- Embedding of `is_resident(stay_days)`. -/
def is_resident (stay_days : ℤ) : Bool :=
  decide (182 ≤ stay_days)

/-- Embedding of `count_non_resident_years(flags)`: `flags.count(False)`. -/
def count_non_resident_years (flags : List Bool) : ℕ :=
  flags.count false

/-- Label of the financial year starting in year `y`: the comprehension body
of `fy_range`, i.e. `f"FY {y}-{str(y+1)[-2:]}"`. -/
def fy_label (y : ℕ) : String :=
  let s := toString (y + 1)
  "FY " ++ toString y ++ "-" ++ s.drop (s.length - 2)

/-- Embedding of `fy_range(start_year, end_year)`:
labels for each year in `range(start_year, end_year + 1)`. -/
def fy_range (start_year end_year : ℕ) : List String :=
  (List.range (end_year + 1 - start_year)).map (fun k => fy_label (start_year + k))

/-- A Python value that is either an `int` or a string: the type of the
`nonres_10` and `stay_7yrs` variables, which hold the placeholder string
`"-"` at index 0 and an `int` afterwards. -/
inductive Agg where
  | num : ℤ → Agg
  | str : String → Agg
  deriving Repr, DecidableEq, Inhabited

/-- One row of the `results` list, with the five dictionary entries
`"Financial Year"`, `"Resident"`, `"Days in India"`, `"RNOR Eligible"`,
`"Reason"`. -/
structure Row where
  financial_year : String
  resident : String
  days_in_india : ℤ
  rnor_eligible : String
  reason : String
  deriving Repr, DecidableEq, Inhabited

/-- The FY window used at loop index for year `y`:
`fy_start = datetime(y, 4, 1)`, `fy_end = datetime(y + 1, 3, 31)`. -/
def fyWindow (y : ℕ) : ℤ × ℤ :=
  (dayNumber y 4 1, dayNumber (y + 1) 3 31)

/-- The lookback aggregates computed at loop index `i`: for `i >= 1`,
`nonres_10 = count_non_resident_years(resident_flags[max(0, i - 10):i])` and
`stay_7yrs = sum(calc_days_in_india(travel_data, fy_j) for j in
range(max(0, i - 7), i))`; for `i == 0` both are the string `"-"`.
Python slicing `[a:i]` is `take i` then `drop a`, and `max(0, i - k)` is
truncated subtraction on `ℕ`. -/
def lookback (travel_data : List Trip) (start_fy : ℕ) (i : ℕ)
    (resident_flags : List Bool) : Agg × Agg :=
  if 1 ≤ i then
    let preceding_10 := (resident_flags.take i).drop (i - 10)
    let nonres_10 : ℤ := (count_non_resident_years preceding_10 : ℤ)
    let lo := i - 7
    let stay_7yrs : ℤ :=
      ((List.range (i - lo)).map (fun k =>
        calc_days_in_india travel_data
          (fyWindow (start_fy + lo + k)).1 (fyWindow (start_fy + lo + k)).2)).sum
    (Agg.num nonres_10, Agg.num stay_7yrs)
  else
    (Agg.str "-", Agg.str "-")

/-- Rule 3 of the decision: fires when `stay_7yrs` is an `int` and
`stay_7yrs <= 729`. -/
def rule3Result (stay_7yrs : Agg) : Bool × String :=
  match stay_7yrs with
  | Agg.num s =>
      if s ≤ 729 then
        (true, "Stayed in India only " ++ toString s ++ " days in last 7 years")
      else (false, "")
  | Agg.str _ => (false, "")

/-- The `(rnor, rnor_reason)` pair computed by the decision block: starts as
`(False, "")`; when `resident`, rule 2 (`isinstance(nonres_10, int) and
nonres_10 >= 9`) is tried first, then rule 3 via `elif`. -/
def rnor_decision (resident : Bool) (nonres_10 stay_7yrs : Agg) : Bool × String :=
  if resident then
    match nonres_10 with
    | Agg.num n =>
        if 9 ≤ n then
          (true, "Non-resident in " ++ toString n ++ " of last 10 years")
        else rule3Result stay_7yrs
    | Agg.str _ => rule3Result stay_7yrs
  else (false, "")

/-- One iteration of the FY loop at index `i` with label `fy` and the
accumulated `resident_flags`: returns the appended row and the resident
flag appended to `resident_flags`. -/
def evalStep (travel_data : List Trip) (start_fy : ℕ) (i : ℕ)
    (resident_flags : List Bool) (fy : String) : Row × Bool :=
  let w := fyWindow (start_fy + i)
  let days_in_india := calc_days_in_india travel_data w.1 w.2
  let resident := is_resident days_in_india
  let aggs := lookback travel_data start_fy i resident_flags
  let rd := rnor_decision resident aggs.1 aggs.2
  (⟨fy,
    if resident then "Yes" else "No",
    days_in_india,
    if rd.1 then "Yes ✅" else "No ❌",
    if rd.1 then rd.2 else "-"⟩,
   resident)

/-- The `for i, fy in enumerate(fy_list)` loop: accumulates `results` and
`resident_flags`. -/
def loopAux (travel_data : List Trip) (start_fy : ℕ) :
    List String → ℕ → List Bool → List Row
  | [], _, _ => []
  | fy :: rest, i, flags =>
    let step := evalStep travel_data start_fy i flags fy
    step.1 :: loopAux travel_data start_fy rest (i + 1) (flags ++ [step.2])

/-- The whole report computation after form submission:
`start_fy = final_return_year - 10`, `end_fy = final_return_year + 3`,
`fy_list = fy_range(start_fy, end_fy)`, then the FY loop.  Only the year of
the final return date is ever read by the source. -/
def rnor_report (travel_data : List Trip) (final_return_year : ℕ) : List Row :=
  let start_fy := final_return_year - 10
  let end_fy := final_return_year + 3
  loopAux travel_data start_fy (fy_range start_fy end_fy) 0 []

-- Unfolding lemmas for `calc_days_in_india`.

theorem calc_days_foldl_eq (l : List Trip) (a b : ℤ) (init : ℤ) :
    l.foldl (fun total_days trip => total_days + tripDays a b trip) init
      = init + (l.map (tripDays a b)).sum := by
  induction l generalizing init with
  | nil => simp
  | cons t l ih => simp [ih, add_assoc]

theorem calc_days_eq_sum (l : List Trip) (a b : ℤ) :
    calc_days_in_india l a b = (l.map (tripDays a b)).sum := by
  simp [calc_days_in_india, calc_days_foldl_eq]

theorem tripDays_nonneg (a b : ℤ) (t : Trip) : 0 ≤ tripDays a b t := by
  unfold tripDays
  rcases t with ⟨dep, ret⟩
  cases dep with
  | none => simp
  | some d =>
    cases ret with
    | none => simp
    | some r =>
      simp only
      split
      · exact le_refl 0
      · split
        · exact le_refl 0
        · exact le_max_right _ 0

/-- C1: the claim says `calc_days_in_india` sums the clipped abroad-day
lengths into one `daysAbroad` total and returns
`max(fyLengthDays - daysAbroad, 0)`.  The source instead adds, for each
intersecting trip separately, `max(fyLengthDays - that trip's clipped
length, 0)`.  On the FY 2020-21 window (364 days): with no trips the code
returns `0` while the claimed algorithm (`spec_days_in_india`, modelled
from the spec) returns `364`; with two 10-day trips the code returns
`(364 - 10) + (364 - 10) = 708` while the claimed algorithm returns
`364 - 20 = 344`. -/
theorem calc_days_in_india_not_clip_sum_subtract :
    calc_days_in_india [] (fyWindow 2020).1 (fyWindow 2020).2 = 0 ∧
    spec_days_in_india [] (fyWindow 2020).1 (fyWindow 2020).2 = 364 ∧
    calc_days_in_india
      [⟨some (dayNumber 2020 4 10), some (dayNumber 2020 4 20)⟩,
       ⟨some (dayNumber 2020 5 10), some (dayNumber 2020 5 20)⟩]
      (fyWindow 2020).1 (fyWindow 2020).2 = 708 ∧
    spec_days_in_india
      [⟨some (dayNumber 2020 4 10), some (dayNumber 2020 4 20)⟩,
       ⟨some (dayNumber 2020 5 10), some (dayNumber 2020 5 20)⟩]
      (fyWindow 2020).1 (fyWindow 2020).2 = 344 := by
  decide

/-- C2: the claim says that with an empty trip list every FY row shows
`daysInIndia = fyLengthDays` and `resident = true`.  The code returns
`0` days (the loop body never runs, so `total_days` stays `0`) and hence
`Resident = "No"` for all 14 rows, while the first FY window is 364 days
long. -/
theorem rnor_report_empty_trips_all_zero :
    (rnor_report [] 2023).map
        (fun r => (r.days_in_india, r.resident, r.rnor_eligible)) =
      List.replicate 14 ((0 : ℤ), "No", "No ❌") ∧
    (fyWindow 2013).2 - (fyWindow 2013).1 = 364 := by
  decide

/-- C3: the claim says `0 ≤ daysInIndia ≤ fyLengthDays` always.  On the
365-day FY 2019-20 window, two valid 50-day trips make the code return
`(365 - 50) + (365 - 50) = 630 > 365`, violating the upper bound. -/
theorem calc_days_in_india_exceeds_window :
    (fyWindow 2019).2 - (fyWindow 2019).1 = 365 ∧
    calc_days_in_india
      [⟨some (dayNumber 2019 5 1), some (dayNumber 2019 6 20)⟩,
       ⟨some (dayNumber 2019 8 1), some (dayNumber 2019 9 20)⟩]
      (fyWindow 2019).1 (fyWindow 2019).2 = 630 ∧
    ¬ (calc_days_in_india
      [⟨some (dayNumber 2019 5 1), some (dayNumber 2019 6 20)⟩,
       ⟨some (dayNumber 2019 8 1), some (dayNumber 2019 9 20)⟩]
      (fyWindow 2019).1 (fyWindow 2019).2 ≤ (fyWindow 2019).2 - (fyWindow 2019).1) := by
  decide

/-- C6: `is_resident` returns `true` exactly when `stay_days ≥ 182`; in
particular `182` is resident and `181` is not. -/
theorem is_resident_iff_threshold :
    (∀ d : ℤ, 0 ≤ d → (is_resident d = true ↔ 182 ≤ d)) ∧
    is_resident 182 = true ∧ is_resident 181 = false := by
  refine ⟨fun d _ => ?_, by decide, by decide⟩
  simp [is_resident]

/-- Witness for `is_resident_iff_threshold` at the concrete input `200`. -/
theorem is_resident_iff_threshold_witness :
    0 ≤ (200 : ℤ) ∧ is_resident 200 = true :=
  ⟨by decide, (is_resident_iff_threshold.1 200 (by decide)).mpr (by decide)⟩

/-- C4: for any resident flag and integer aggregates (the `i ≥ 1` case),
the decision follows the strict precedence order: not resident gives
ineligible with row reason `"-"`; else rule 2 (`nonres_10 ≥ 9`) fires with
its reason regardless of `stay_7yrs`; else rule 3 (`stay_7yrs ≤ 729`)
fires with its reason; else ineligible with row reason `"-"`.  The row
reason is `rnor_reason if rnor else "-"`. -/
theorem rnor_decision_precedence :
    ∀ (resident : Bool) (n s : ℤ),
      (resident = false →
        (rnor_decision resident (Agg.num n) (Agg.num s)).1 = false ∧
        (if (rnor_decision resident (Agg.num n) (Agg.num s)).1
          then (rnor_decision resident (Agg.num n) (Agg.num s)).2 else "-") = "-") ∧
      (resident = true → 9 ≤ n →
        rnor_decision resident (Agg.num n) (Agg.num s)
          = (true, "Non-resident in " ++ toString n ++ " of last 10 years")) ∧
      (resident = true → n < 9 → s ≤ 729 →
        rnor_decision resident (Agg.num n) (Agg.num s)
          = (true, "Stayed in India only " ++ toString s ++ " days in last 7 years")) ∧
      (resident = true → n < 9 → 729 < s →
        (rnor_decision resident (Agg.num n) (Agg.num s)).1 = false ∧
        (if (rnor_decision resident (Agg.num n) (Agg.num s)).1
          then (rnor_decision resident (Agg.num n) (Agg.num s)).2 else "-") = "-") := by
  intro resident n s
  refine ⟨fun h => ?_, fun h h9 => ?_, fun h h9 hs => ?_, fun h h9 hs => ?_⟩
  · subst h; simp [rnor_decision]
  · subst h; simp [rnor_decision, h9]
  · subst h
    have h1 : ¬ (9 ≤ n) := by omega
    simp [rnor_decision, rule3Result, h1, hs]
  · subst h
    have h1 : ¬ (9 ≤ n) := by omega
    have h2 : ¬ (s ≤ 729) := by omega
    simp [rnor_decision, rule3Result, h1, h2]

/-- Witness for `rnor_decision_precedence`: at `resident = true`,
`nonres_10 = 9`, `stay_7yrs = 0` (both rules would qualify), rule 2 wins. -/
theorem rnor_decision_precedence_witness :
    (9 : ℤ) ≤ 9 ∧
    rnor_decision true (Agg.num 9) (Agg.num 0)
      = (true, "Non-resident in " ++ toString (9 : ℤ) ++ " of last 10 years") :=
  ⟨by decide, (rnor_decision_precedence true 9 0).2.1 rfl (by decide)⟩

-- Bridging lemmas between the list operations of the source loop and
-- index-set formulations.

theorem sum_map_range (f : ℕ → ℤ) (n : ℕ) :
    ((List.range n).map f).sum = ∑ k in Finset.range n, f k := by
  induction n with
  | zero => simp
  | succ n ih => rw [List.range_succ]; simp [ih, Finset.sum_range_succ]

theorem count_false_eq_sum (l : List Bool) :
    l.count false = ∑ j in Finset.range l.length, if l.getD j true = false then 1 else 0 := by
  induction l with
  | nil => simp
  | cons b t ih =>
    rw [List.length_cons, Finset.sum_range_succ']
    simp only [List.getD_cons_succ, List.getD_cons_zero]
    rw [← ih]
    cases b <;> simp [List.count_cons]

theorem count_false_drop (l : List Bool) (k : ℕ) :
    (l.drop k).count false
      = ((Finset.Ico k l.length).filter (fun j => l.getD j true = false)).card := by
  rw [count_false_eq_sum, Finset.card_filter, Finset.sum_Ico_eq_sum_range,
    List.length_drop]
  refine Finset.sum_congr rfl (fun j hj => ?_)
  have hget : (l.drop k).getD j true = l.getD (k + j) true := by
    simp [List.getD_eq_getElem?_getD, List.getElem?_drop]
  rw [hget]

/-- C5: for `i ≥ 1` (with `resident_flags` of length `i`, as holds at loop
iteration `i`), the first aggregate is the count of `false` flags at
indices `[max(0, i - 10), i)` and the second is the sum of freshly
recomputed `calc_days_in_india` values over the FY windows of indices
`[max(0, i - 7), i)`; for `i = 0` both aggregates are the placeholder
string `"-"`.  On `ℕ`, `i - k` is `max(0, i - k)`. -/
theorem lookback_spec :
    ∀ (travel : List Trip) (start_fy i : ℕ) (flags : List Bool),
      flags.length = i →
      (1 ≤ i →
        lookback travel start_fy i flags =
          (Agg.num (((Finset.Ico (i - 10) i).filter
              (fun j => flags.getD j true = false)).card : ℤ),
           Agg.num (∑ j in Finset.Ico (i - 7) i,
             calc_days_in_india travel
               (fyWindow (start_fy + j)).1 (fyWindow (start_fy + j)).2))) ∧
      (i = 0 → lookback travel start_fy i flags = (Agg.str "-", Agg.str "-")) := by
  intro travel start_fy i flags h
  subst h
  refine ⟨fun hi => ?_, fun hi => ?_⟩
  · have e2 : ((List.range (flags.length - (flags.length - 7))).map (fun k =>
        calc_days_in_india travel
          (fyWindow (start_fy + (flags.length - 7) + k)).1
          (fyWindow (start_fy + (flags.length - 7) + k)).2)).sum
        = ∑ j in Finset.Ico (flags.length - 7) flags.length,
            calc_days_in_india travel
              (fyWindow (start_fy + j)).1 (fyWindow (start_fy + j)).2 := by
      rw [sum_map_range, Finset.sum_Ico_eq_sum_range]
      exact Finset.sum_congr rfl (fun k _ => by rw [add_assoc])
    simp only [lookback, if_pos hi, count_non_resident_years, List.take_length, e2,
      count_false_drop]
  · simp [lookback, hi]

/-- Witness for `lookback_spec` at `i = 1` with one non-resident flag and
no trips. -/
theorem lookback_spec_witness :
    ([false] : List Bool).length = 1 ∧
    lookback [] 2013 1 [false] =
      (Agg.num (((Finset.Ico (1 - 10) 1).filter
          (fun j => ([false] : List Bool).getD j true = false)).card : ℤ),
       Agg.num (∑ j in Finset.Ico (1 - 7) 1,
         calc_days_in_india [] (fyWindow (2013 + j)).1 (fyWindow (2013 + j)).2)) :=
  ⟨rfl, (lookback_spec [] 2013 1 [false] rfl).1 (by decide)⟩

theorem loopAux_length (t : List Trip) (s : ℕ) :
    ∀ (fys : List String) (i : ℕ) (flags : List Bool),
      (loopAux t s fys i flags).length = fys.length := by
  intro fys
  induction fys with
  | nil => intro i flags; simp [loopAux]
  | cons fy rest ih => intro i flags; simp [loopAux, ih]

theorem loopAux_getD (t : List Trip) (s : ℕ) :
    ∀ (fys : List String) (i : ℕ) (flags : List Bool) (k : ℕ), k < fys.length →
      ((loopAux t s fys i flags).getD k default).financial_year = fys.getD k "" ∧
      ((loopAux t s fys i flags).getD k default).days_in_india =
        calc_days_in_india t (fyWindow (s + (i + k))).1 (fyWindow (s + (i + k))).2 := by
  intro fys
  induction fys with
  | nil => intro i flags k hk; simp at hk
  | cons fy rest ih =>
    intro i flags k hk
    cases k with
    | zero => simp [loopAux, evalStep]
    | succ k =>
      have hk' : k < rest.length := by simpa using hk
      have hrec := ih (i + 1) (flags ++ [(evalStep t s i flags fy).2]) k hk'
      have harith : i + 1 + k = i + (k + 1) := by omega
      rw [harith] at hrec
      simpa [loopAux] using hrec

theorem fy_range_length (a b : ℕ) : (fy_range a b).length = b + 1 - a := by
  simp [fy_range]

theorem fy_range_getD (a b k : ℕ) (h : k < b + 1 - a) :
    (fy_range a b).getD k "" = fy_label (a + k) := by
  simp [fy_range, List.getD_eq_getElem?_getD, List.getElem?_map, List.getElem?_range h]

/-- C7: for every trip list and final-return year `y ≥ 10` (so that the
constructed start year is a valid calendar year), the report has exactly
14 rows; row `k` carries the label of the FY starting in year
`y - 10 + k` (so the sequence runs from `y - 10` through `y + 3` in
chronological order) and its day count is computed over the window from
April 1 of that year to March 31 of the next. -/
theorem rnor_report_fy_sequence :
    ∀ (travel : List Trip) (y : ℕ), 10 ≤ y →
      (rnor_report travel y).length = 14 ∧
      ∀ k, k < 14 →
        ((rnor_report travel y).getD k default).financial_year = fy_label (y - 10 + k) ∧
        ((rnor_report travel y).getD k default).days_in_india =
          calc_days_in_india travel (dayNumber (y - 10 + k) 4 1)
            (dayNumber (y - 10 + k + 1) 3 31) := by
  intro travel y hy
  have hlen : (fy_range (y - 10) (y + 3)).length = 14 := by
    rw [fy_range_length]; omega
  constructor
  · rw [rnor_report, loopAux_length, hlen]
  · intro k hk
    have hk' : k < (fy_range (y - 10) (y + 3)).length := by omega
    have h := loopAux_getD travel (y - 10) (fy_range (y - 10) (y + 3)) 0 [] k hk'
    rw [rnor_report]
    refine ⟨?_, ?_⟩
    · rw [h.1, fy_range_getD]; omega
    · rw [h.2]
      simp [fyWindow]

/-- Witness for `rnor_report_fy_sequence` at year 2023 with no trips. -/
theorem rnor_report_fy_sequence_witness :
    10 ≤ 2023 ∧ (rnor_report [] 2023).length = 14 :=
  ⟨by decide, (rnor_report_fy_sequence [] 2023 (by decide)).1⟩

theorem calc_append (l1 l2 : List Trip) (a b : ℤ) :
    calc_days_in_india (l1 ++ l2) a b
      = calc_days_in_india l1 a b + calc_days_in_india l2 a b := by
  simp [calc_days_eq_sum]

theorem tripDays_invalid (a b d r : ℤ) (h : r ≤ d) :
    tripDays a b ⟨some d, some r⟩ = 0 := by
  simp [tripDays, h]

theorem tripDays_skip (a b d r : ℤ) (h : r < a ∨ b < d ∨ r ≤ d) :
    tripDays a b ⟨some d, some r⟩ = 0 := by
  unfold tripDays
  simp only
  by_cases h1 : r ≤ d
  · rw [if_pos h1]
  · rw [if_neg h1, if_pos]
    rcases h with h | h | h
    · exact Or.inl h
    · exact Or.inr h
    · exact absurd h h1

theorem tripDays_none (a b : ℤ) (t : Trip) (h : t.dep = none ∨ t.ret = none) :
    tripDays a b t = 0 := by
  rcases t with ⟨dep, ret⟩
  rcases h with h | h
  · simp only at h; subst h; cases ret <;> simp [tripDays]
  · simp only at h; subst h; cases dep <;> simp [tripDays]

theorem lookback_congr (t1 t2 : List Trip)
    (h : ∀ a b, calc_days_in_india t1 a b = calc_days_in_india t2 a b)
    (s i : ℕ) (flags : List Bool) :
    lookback t1 s i flags = lookback t2 s i flags := by
  simp only [lookback, h]

theorem evalStep_congr (t1 t2 : List Trip)
    (h : ∀ a b, calc_days_in_india t1 a b = calc_days_in_india t2 a b)
    (s i : ℕ) (flags : List Bool) (fy : String) :
    evalStep t1 s i flags fy = evalStep t2 s i flags fy := by
  simp only [evalStep, h, lookback_congr t1 t2 h]

theorem loopAux_congr (t1 t2 : List Trip)
    (h : ∀ a b, calc_days_in_india t1 a b = calc_days_in_india t2 a b) (s : ℕ) :
    ∀ (fys : List String) (i : ℕ) (flags : List Bool),
      loopAux t1 s fys i flags = loopAux t2 s fys i flags := by
  intro fys
  induction fys with
  | nil => intro i flags; simp [loopAux]
  | cons fy rest ih =>
    intro i flags
    simp only [loopAux, evalStep_congr t1 t2 h, ih]

theorem rnor_report_congr (t1 t2 : List Trip)
    (h : ∀ a b, calc_days_in_india t1 a b = calc_days_in_india t2 a b) (y : ℕ) :
    rnor_report t1 y = rnor_report t2 y := by
  simp only [rnor_report, loopAux_congr t1 t2 h]

/-- C8: a malformed trip (departure not strictly before return) anywhere in
the trip list is silently excluded: every day count, and hence the whole
report, equals the one computed on the list with that trip removed.  The
embedding is a total function, matching the absence of any raising path in
the source for well-typed input. -/
theorem malformed_trip_excluded :
    ∀ (l1 l2 : List Trip) (t : Trip) (d r : ℤ),
      t.dep = some d → t.ret = some r → r ≤ d →
      (∀ a b, calc_days_in_india (l1 ++ t :: l2) a b
        = calc_days_in_india (l1 ++ l2) a b) ∧
      (∀ y, rnor_report (l1 ++ t :: l2) y = rnor_report (l1 ++ l2) y) := by
  intro l1 l2 t d r hd hr h
  have ht : t = ⟨some d, some r⟩ := by
    rcases t with ⟨dep, ret⟩
    simp only at hd hr
    rw [hd, hr]
  have hc : ∀ a b, calc_days_in_india (l1 ++ t :: l2) a b
      = calc_days_in_india (l1 ++ l2) a b := by
    intro a b
    subst ht
    simp [calc_days_eq_sum, tripDays_invalid a b d r h]
  exact ⟨hc, fun y => rnor_report_congr _ _ hc y⟩

/-- Witness for `malformed_trip_excluded`: a trip departing on day 5 and
returning on day 3 contributes nothing on the window `[0, 10]`. -/
theorem malformed_trip_excluded_witness :
    (Trip.mk (some 5) (some 3)).dep = some 5 ∧
    (Trip.mk (some 5) (some 3)).ret = some 3 ∧
    (3 : ℤ) ≤ 5 ∧
    calc_days_in_india ([] ++ Trip.mk (some 5) (some 3) :: []) 0 10
      = calc_days_in_india ([] ++ []) 0 10 :=
  ⟨rfl, rfl, by decide,
    (malformed_trip_excluded [] [] ⟨some 5, some 3⟩ 5 3 rfl rfl (by decide)).1 0 10⟩

/-- C10: appending any trip to the trip list never decreases the computed
day count (every per-trip contribution is non-negative), and appending a
trip that does not intersect the window (`return < fy_start` or
`departure > fy_end`), is malformed (`return ≤ departure`), or carries a
non-datetime field, leaves the result unchanged. -/
theorem calc_days_in_india_monotone_append :
    ∀ (l : List Trip) (t : Trip) (a b : ℤ),
      calc_days_in_india l a b ≤ calc_days_in_india (l ++ [t]) a b ∧
      (∀ d r, t.dep = some d → t.ret = some r → (r < a ∨ b < d ∨ r ≤ d) →
        calc_days_in_india (l ++ [t]) a b = calc_days_in_india l a b) ∧
      ((t.dep = none ∨ t.ret = none) →
        calc_days_in_india (l ++ [t]) a b = calc_days_in_india l a b) := by
  intro l t a b
  have happ : calc_days_in_india (l ++ [t]) a b
      = calc_days_in_india l a b + tripDays a b t := by
    rw [calc_append]
    simp [calc_days_eq_sum]
  refine ⟨?_, fun d r hd hr h => ?_, fun h => ?_⟩
  · rw [happ]
    exact le_add_of_nonneg_right (tripDays_nonneg a b t)
  · have ht : t = ⟨some d, some r⟩ := by
      rcases t with ⟨dep, ret⟩
      simp only at hd hr
      rw [hd, hr]
    subst ht
    rw [happ, tripDays_skip a b d r h, add_zero]
  · rw [happ, tripDays_none a b t h, add_zero]

/-- Witness for `calc_days_in_india_monotone_append`: appending a trip
lying entirely after the window `[0, 10]` changes nothing. -/
theorem calc_days_in_india_monotone_append_witness :
    (Trip.mk (some 20) (some 30)).dep = some 20 ∧
    (Trip.mk (some 20) (some 30)).ret = some 30 ∧
    ((30 : ℤ) < 0 ∨ (10 : ℤ) < 20 ∨ (30 : ℤ) ≤ 20) ∧
    calc_days_in_india ([Trip.mk (some 0) (some 5)] ++ [Trip.mk (some 20) (some 30)]) 0 10
      = calc_days_in_india [Trip.mk (some 0) (some 5)] 0 10 :=
  ⟨rfl, rfl, by decide,
    (calc_days_in_india_monotone_append [⟨some 0, some 5⟩] ⟨some 20, some 30⟩ 0 10).2.1
      20 30 rfl rfl (by decide)⟩

/-- C9 counterexample: the claim says the "RNOR Eligible" field is the
string "Yes" or "No"; the source writes "Yes ✅" or "No ❌".  The first
row of the no-trip report carries "No ❌", which is neither. -/
theorem report_rnor_field_not_plain_yes_no :
    ((rnor_report [] 2023).getD 0 default).rnor_eligible = "No ❌" ∧
    ¬ (((rnor_report [] 2023).getD 0 default).rnor_eligible = "Yes" ∨
       ((rnor_report [] 2023).getD 0 default).rnor_eligible = "No") := by
  decide

theorem string_append_ne (p m q : String) (hp : 2 ≤ p.length) :
    p ++ m ++ q ≠ "-" ∧ p ++ m ++ q ≠ "" := by
  have h1 : ("-" : String).length = 1 := rfl
  have h0 : ("" : String).length = 0 := rfl
  constructor <;> intro h <;> have hl := congrArg String.length h <;>
    rw [String.length_append, String.length_append] at hl
  · rw [h1] at hl; omega
  · rw [h0] at hl; omega

theorem rule3_reason_nonempty (s7 : Agg) (h : (rule3Result s7).1 = true) :
    (rule3Result s7).2 ≠ "-" ∧ (rule3Result s7).2 ≠ "" := by
  cases s7 with
  | num s =>
    by_cases hs : s ≤ 729
    · simp only [rule3Result, if_pos hs]
      exact string_append_ne _ _ _ (by decide)
    · simp [rule3Result, hs] at h
  | str s => simp [rule3Result] at h

theorem rnor_reason_nonempty (res : Bool) (n10 s7 : Agg)
    (h : (rnor_decision res n10 s7).1 = true) :
    (rnor_decision res n10 s7).2 ≠ "-" ∧ (rnor_decision res n10 s7).2 ≠ "" := by
  cases res with
  | false => simp [rnor_decision] at h
  | true =>
    cases n10 with
    | num n =>
      by_cases h9 : 9 ≤ n
      · simp only [rnor_decision, if_pos h9, if_true]
        exact string_append_ne _ _ _ (by decide)
      · simp only [rnor_decision, if_neg h9, if_true] at h ⊢
        exact rule3_reason_nonempty s7 h
    | str m =>
      simp only [rnor_decision, if_true] at h ⊢
      exact rule3_reason_nonempty s7 h

theorem mem_loopAux (t : List Trip) (s : ℕ) :
    ∀ (fys : List String) (i : ℕ) (flags : List Bool) (row : Row),
      row ∈ loopAux t s fys i flags →
      ∃ j flags2 fy, row = (evalStep t s j flags2 fy).1 := by
  intro fys
  induction fys with
  | nil => intro i flags row h; simp [loopAux] at h
  | cons fy rest ih =>
    intro i flags row h
    simp only [loopAux, List.mem_cons] at h
    rcases h with h | h
    · exact ⟨i, flags, fy, h⟩
    · exact ih _ _ _ h

theorem evalStep_row_shape (t : List Trip) (s i : ℕ) (flags : List Bool) (fy : String) :
    ((evalStep t s i flags fy).1.resident = "Yes" ∨
      (evalStep t s i flags fy).1.resident = "No") ∧
    ((evalStep t s i flags fy).1.rnor_eligible = "Yes ✅" ∨
      (evalStep t s i flags fy).1.rnor_eligible = "No ❌") ∧
    ((evalStep t s i flags fy).1.rnor_eligible = "Yes ✅" →
      (evalStep t s i flags fy).1.reason ≠ "-" ∧ (evalStep t s i flags fy).1.reason ≠ "") ∧
    ((evalStep t s i flags fy).1.rnor_eligible = "No ❌" →
      (evalStep t s i flags fy).1.reason = "-") := by
  simp only [evalStep]
  refine ⟨?_, ?_, ?_, ?_⟩
  · cases is_resident (calc_days_in_india t (fyWindow (s + i)).1 (fyWindow (s + i)).2) <;>
      simp
  · cases h : (rnor_decision
        (is_resident (calc_days_in_india t (fyWindow (s + i)).1 (fyWindow (s + i)).2))
        (lookback t s i flags).1 (lookback t s i flags).2).1 <;> simp [h]
  · cases h : (rnor_decision
        (is_resident (calc_days_in_india t (fyWindow (s + i)).1 (fyWindow (s + i)).2))
        (lookback t s i flags).1 (lookback t s i flags).2).1 with
    | false => intro hcontra; simp [h] at hcontra
    | true =>
      intro _
      simp only [h, if_true]
      exact rnor_reason_nonempty _ _ _ h
  · cases h : (rnor_decision
        (is_resident (calc_days_in_india t (fyWindow (s + i)).1 (fyWindow (s + i)).2))
        (lookback t s i flags).1 (lookback t s i flags).2).1 with
    | false => intro _; simp [h]
    | true => intro hcontra; simp [h] at hcontra

/-- C9 amended: every report row has `Resident ∈ {"Yes", "No"}`,
`RNOR Eligible ∈ {"Yes ✅", "No ❌"}` (the source appends an emoji to this
field), and `Reason` is a non-empty reason string different from `"-"`
when eligible and exactly `"-"` otherwise. -/
theorem report_row_fields_shape :
    ∀ (travel : List Trip) (y : ℕ) (row : Row), row ∈ rnor_report travel y →
      (row.resident = "Yes" ∨ row.resident = "No") ∧
      (row.rnor_eligible = "Yes ✅" ∨ row.rnor_eligible = "No ❌") ∧
      (row.rnor_eligible = "Yes ✅" → row.reason ≠ "-" ∧ row.reason ≠ "") ∧
      (row.rnor_eligible = "No ❌" → row.reason = "-") := by
  intro travel y row h
  simp only [rnor_report] at h
  obtain ⟨j, flags2, fy, rfl⟩ := mem_loopAux _ _ _ _ _ _ h
  exact evalStep_row_shape _ _ _ _ _

/-- Witness for `report_row_fields_shape` on the first row of the no-trip
report for year 2023. -/
theorem report_row_fields_shape_witness :
    ((rnor_report [] 2023).getD 0 default) ∈ rnor_report [] 2023 ∧
    (((rnor_report [] 2023).getD 0 default).resident = "Yes" ∨
      ((rnor_report [] 2023).getD 0 default).resident = "No") :=
  ⟨by decide, (report_row_fields_shape [] 2023 _ (by decide)).1⟩
